import Mathlib

/-!
Verification of the task-reminder backend (FastAPI + SQLAlchemy) against its
natural-language specification.

The Python code is shallowly embedded: every database table is a list of
records, a request-scoped session is explicit state passing (a CRUD function
either returns a new committed database or an error, in which case the
session is discarded on close and the committed state is unchanged), Python
strings that are only compared for equality are Lean `String`s, and Python
strings whose character structure matters (tag encoding, channel-value
validation) are explicit character lists (`PyStr`).  Machine-level details
that no claim depends on (bcrypt hashes, JWT byte encoding) are abstracted
as noted at their definitions.
-/

/-- Python `str` where the character structure matters. -/
abbrev PyStr := List Char

/-- Python `str.strip()`: remove leading and trailing whitespace. -/
def pyStrip (s : PyStr) : PyStr :=
  ((s.dropWhile Char.isWhitespace).reverse.dropWhile Char.isWhitespace).reverse

/-- Python `str.replace(c, "")` for a one-character pattern: drop every
occurrence of `c`. -/
def pyRemoveChar (s : PyStr) (c : Char) : PyStr :=
  s.filter (fun x => x ≠ c)

/-- Python `str.isdigit()`: true on a non-empty string of digit characters
(restricted to the ASCII digits; the claims only involve ASCII input). -/
def pyIsDigit (s : PyStr) : Bool :=
  !s.isEmpty && s.all Char.isDigit

/-- Python `int(s)` on a decimal string of a non-negative id: the parsed
value, or `none` when `int` would raise `ValueError`. -/
def pyInt? (s : String) : Option Nat :=
  if s.data ≠ [] ∧ s.data.all Char.isDigit then
    some (s.data.foldl (fun n c => n * 10 + (c.toNat - 48)) 0)
  else none

-- ============================================
-- app/models: database records (one structure per SQLAlchemy model,
-- keeping the columns the claims are about)
-- ============================================

/-- `app.models.user.User` (columns relevant to the claims). -/
structure UserR where
  id : Nat
  email : String
  username : String
  hashedPassword : String
  isActive : Bool
  isSuperuser : Bool
deriving DecidableEq, Repr

/-- `app.models.contact.ChannelType`. -/
inductive ChannelTypeV
  | whatsapp
  | email
  | telegram
deriving DecidableEq, Repr

/-- `app.models.contact.Contact` (columns relevant to the claims). -/
structure ContactR where
  id : Nat
  userId : Nat
  name : String
  channelType : ChannelTypeV
  channelValue : PyStr
  isActive : Bool
deriving DecidableEq, Repr

/-- `app.models.task.TaskStatus`. -/
inductive TaskStatusV
  | pendiente
  | enProgreso
  | finalizado
  | enviada
  | cancelada
deriving DecidableEq, Repr

/-- `app.models.task.Task` (columns relevant to the claims; `tags` is the
comma-delimited string column, datetimes are integer timestamps). -/
structure TaskR where
  id : Nat
  userId : Nat
  title : String
  description : Option String
  scheduledDatetime : Int
  status : TaskStatusV
  tags : PyStr
  isSent : Bool
  sentAt : Option Int
  isActive : Bool
  createdByAi : Bool
deriving DecidableEq, Repr

/-- `app.models.task_history.TaskHistory` (columns relevant to the claims;
`createdAt` is an integer timestamp used only for ordering). -/
structure HistoryR where
  id : Nat
  taskId : Nat
  userId : Option Nat
  action : String
  fieldChanged : Option String
  oldValue : Option String
  newValue : Option String
  notes : Option String
  createdAt : Nat
deriving DecidableEq, Repr

/-- The relational database: one list per table.  `taskContacts` is the
`task_contacts` many-to-many association table as (task_id, contact_id)
pairs. -/
structure DB where
  users : List UserR
  contacts : List ContactR
  tasks : List TaskR
  taskContacts : List (Nat × Nat)
  history : List HistoryR
deriving DecidableEq, Repr

/-- Result of a CRUD function: the Python function returns `None`
(`notFound`), raises `ValueError` (`err`, session discarded without commit)
or commits and returns (`ok`). -/
inductive CrudResult (α : Type)
  | notFound
  | err (msg : String)
  | ok (v : α)
deriving DecidableEq, Repr

-- ============================================
-- app/crud/user.py (query helpers used by deps.py and auth.py)
-- ============================================

/-- `user_crud.get_user_by_id`: `db.query(User).filter(User.id == user_id).first()`. -/
def get_user_by_id (db : DB) (userId : Nat) : Option UserR :=
  (db.users.filter (fun u => u.id = userId)).head?

/-- `user_crud.get_user_by_email`: exact equality on the stored email string. -/
def get_user_by_email (db : DB) (email : String) : Option UserR :=
  (db.users.filter (fun u => u.email = email)).head?

/-- `user_crud.get_user_by_username`: exact equality on the stored username. -/
def get_user_by_username (db : DB) (username : String) : Option UserR :=
  (db.users.filter (fun u => u.username = username)).head?

-- ============================================
-- app/core/security.py: JWT creation and validation.
-- A JWT is modelled as its decoded payload plus a flag recording whether its
-- signature verifies against the application SECRET_KEY; `jwt.encode` itself
-- (byte-level signing) is abstracted by that flag.
-- ============================================

/-- The claim set a token payload carries (`sub`, `username`, the expiry and
the `type` discriminator). -/
structure Payload where
  sub : Option String
  username : Option String
  type : String
  exp : Int
deriving DecidableEq, Repr

/-- A JWT: payload plus signature validity w.r.t. the app secret. -/
structure JWT where
  payload : Payload
  validSig : Bool
deriving DecidableEq, Repr

/-- `create_access_token`: adds `exp` and `type="access"` to the data and
signs with SECRET_KEY.  `now` is `datetime.now(timezone.utc)` as a
timestamp, `expiresDelta` the optional override, `accessMinutes` the
`ACCESS_TOKEN_EXPIRE_MINUTES` setting. -/
def create_access_token (sub username : Option String) (now : Int)
    (expiresDelta : Option Int) (accessMinutes : Int) : JWT :=
  { payload := { sub := sub, username := username, type := "access",
                 exp := now + expiresDelta.getD (accessMinutes * 60) },
    validSig := true }

/-- `create_refresh_token`: adds `exp` and `type="refresh"` to the data and
signs with SECRET_KEY.  `refreshDays` is `REFRESH_TOKEN_EXPIRE_DAYS`. -/
def create_refresh_token (sub username : Option String) (now : Int)
    (expiresDelta : Option Int) (refreshDays : Int) : JWT :=
  { payload := { sub := sub, username := username, type := "refresh",
                 exp := now + expiresDelta.getD (refreshDays * 86400) },
    validSig := true }

/-- `decode_access_token`: `jwt.decode` verifies the signature and the `exp`
claim and returns the payload; any `JWTError` yields `None`.  No check of
the `type` claim happens here. -/
def decode_access_token (now : Int) (t : JWT) : Option Payload :=
  if t.validSig ∧ now < t.payload.exp then some t.payload else none

/-- `verify_refresh_token`: decodes and additionally requires
`payload.get("type") == "refresh"`. -/
def verify_refresh_token (now : Int) (t : JWT) : Option Payload :=
  match decode_access_token now t with
  | some payload => if payload.type = "refresh" then some payload else none
  | none => none

-- ============================================
-- app/api/deps.py: get_current_user
-- ============================================

/-- Outcome of `get_current_user`: HTTP 401 (`unauthorized`), HTTP 400 for an
inactive user, or the authenticated user. -/
inductive AuthResult
  | unauthorized
  | inactiveUser
  | ok (u : UserR)
deriving DecidableEq, Repr

/-- `get_current_user` from `app/api/deps.py`: decode the bearer token, read
`sub`, parse it as an integer (`int(user_id)`, `ValueError` → 401), look the
user up, require it active.  The `type` claim of the payload is never
inspected. -/
def get_current_user (db : DB) (now : Int) (token : JWT) : AuthResult :=
  match decode_access_token now token with
  | none => .unauthorized
  | some payload =>
    match payload.sub with
    | none => .unauthorized
    | some sub =>
      match pyInt? sub with
      | none => .unauthorized
      | some uid =>
        match get_user_by_id db uid with
        | none => .unauthorized
        | some user => if user.isActive then .ok user else .inactiveUser

-- ============================================
-- app/schemas/task.py: scheduled_datetime validation.
-- Python datetimes: a value is either timezone-aware or naive; comparing an
-- aware with a naive datetime raises TypeError, which pydantic does not turn
-- into a validation error (only ValueError becomes a 422), so it escapes as
-- an unhandled exception (HTTP 500).
-- ============================================

/-- A Python `datetime`: timestamp plus awareness flag. -/
structure PyDatetime where
  aware : Bool
  value : Int
deriving DecidableEq, Repr

/-- Outcome of running a Python expression that may raise. -/
inductive PyOutcome (α : Type)
  | ok (v : α)
  | valueError (msg : String)
  | typeError (msg : String)
deriving DecidableEq, Repr

/-- Python `a <= b` on datetimes: mixed aware/naive comparison raises
`TypeError`. -/
def pyDtLe (a b : PyDatetime) : PyOutcome Bool :=
  if a.aware = b.aware then .ok (decide (a.value ≤ b.value))
  else .typeError "cant compare offset-naive and offset-aware datetimes"

/-- `TaskBase.validate_future_date`: `if v <= datetime.now(): raise
ValueError(...)`.  `datetime.now()` is naive, with timestamp `nowClock`. -/
def validate_future_date (nowClock : Int) (v : PyDatetime) : PyOutcome PyDatetime :=
  match pyDtLe v { aware := false, value := nowClock } with
  | .ok true => .valueError "La fecha programada debe ser futura"
  | .ok false => .ok v
  | .valueError m => .valueError m
  | .typeError m => .typeError m

/-- HTTP status produced by the scheduled_datetime validation of a
task-creation request: pydantic turns a `ValueError` from the validator into
a 422 validation error; a `TypeError` is not caught by pydantic or the route
and surfaces as a 500; on `ok` validation passes and creation proceeds
(201 path). -/
def scheduled_datetime_request_status (nowClock : Int) (v : PyDatetime) : Nat :=
  match validate_future_date nowClock v with
  | .ok _ => 201
  | .valueError _ => 422
  | .typeError _ => 500

-- ============================================
-- SQL ORDER BY: a stable structural insertion sort (the query layer's
-- `order_by(...)`; only the multiset of rows matters to the claims)
-- ============================================

/-- Insert `x` into `l` before the first element `y` with `le x y`. -/
def insertSorted (le : α → α → Bool) (x : α) : List α → List α
  | [] => [x]
  | y :: ys => if le x y then x :: y :: ys else y :: insertSorted le x ys

/-- `ORDER BY` of a query result under comparison `le`. -/
def orderBy (le : α → α → Bool) : List α → List α
  | [] => []
  | x :: xs => insertSorted le x (orderBy le xs)

theorem mem_insertSorted (le : α → α → Bool) (x a : α) (l : List α) :
    a ∈ insertSorted le x l ↔ a = x ∨ a ∈ l := by
  induction l with
  | nil => simp [insertSorted]
  | cons y ys ih =>
    by_cases h : le x y = true
    · simp [insertSorted, h]
    · simp only [insertSorted, if_neg h, List.mem_cons, ih]
      tauto

theorem mem_orderBy (le : α → α → Bool) (a : α) (l : List α) :
    a ∈ orderBy le l ↔ a ∈ l := by
  induction l with
  | nil => simp [orderBy]
  | cons x xs ih => simp [orderBy, mem_insertSorted, ih]

theorem length_insertSorted (le : α → α → Bool) (x : α) (l : List α) :
    (insertSorted le x l).length = l.length + 1 := by
  induction l with
  | nil => rfl
  | cons y ys ih =>
    by_cases h : le x y = true
    · simp [insertSorted, h]
    · simp [insertSorted, h, ih]

theorem length_orderBy (le : α → α → Bool) (l : List α) :
    (orderBy le l).length = l.length := by
  induction l with
  | nil => rfl
  | cons x xs ih => simp [orderBy, length_insertSorted, ih]

-- ============================================
-- app/crud/user.py: create_user / register route (app/api/routes/auth.py)
-- ============================================

/-- `get_password_hash`: bcrypt hashing is an external library call whose
output no claim depends on; modelled as the identity on the password. -/
def get_password_hash (password : String) : String := password

/-- Fresh primary key for an insert into `users` (autoincrement). -/
def next_user_id (db : DB) : Nat :=
  db.users.foldr (fun u m => max u.id m) 0 + 1

/-- `app/schemas/user.py` `UserCreate`.  Pydantic's `EmailStr` lowercases
only the domain part of the address during parsing; the inputs used below
are already in that normalized form. -/
structure UserCreateV where
  email : String
  username : String
  fullName : Option String
  password : String
deriving DecidableEq, Repr

/-- `user_crud.create_user`: hash the password and insert the new row. -/
def create_user (db : DB) (inp : UserCreateV) : DB × UserR :=
  let u : UserR := { id := next_user_id db, email := inp.email,
                     username := inp.username,
                     hashedPassword := get_password_hash inp.password,
                     isActive := true, isSuperuser := false }
  ({ db with users := db.users ++ [u] }, u)

/-- Outcome of the registration route: HTTPException with a status code, or
the committed database together with the created user. -/
inductive RegisterResult
  | conflict (status : Nat)
  | created (db : DB) (u : UserR)
deriving DecidableEq, Repr

/-- `register_user` from `app/api/routes/auth.py`: look the email up, then
the username, each by exact equality; on a hit raise HTTPException 400,
otherwise create the user. -/
def register_user (db : DB) (inp : UserCreateV) : RegisterResult :=
  match get_user_by_email db inp.email with
  | some _ => .conflict 400
  | none =>
    match get_user_by_username db inp.username with
    | some _ => .conflict 400
    | none => .created (create_user db inp).1 (create_user db inp).2

-- ============================================
-- app/crud/task.py and app/crud/task_history.py: queries for C8
-- ============================================

/-- `task_crud.get_task_by_id`: first task with this id owned by the user. -/
def get_task_by_id (db : DB) (taskId uid : Nat) : Option TaskR :=
  (db.tasks.filter (fun t => t.id = taskId ∧ t.userId = uid)).head?

/-- `task_history_crud.get_history_by_task`: re-query the task by id and
owner; when it is missing return the empty list, otherwise the task's
history ordered by `created_at` descending. -/
def get_history_by_task (db : DB) (taskId uid : Nat) : List HistoryR :=
  match (db.tasks.filter (fun t => t.id = taskId ∧ t.userId = uid)).head? with
  | none => []
  | some _ =>
    orderBy (fun a b => decide (b.createdAt ≤ a.createdAt))
      (db.history.filter (fun h => h.taskId = taskId))

/-- `GET /tasks/{task_id}/history` from `app/api/routes/tasks.py`: the route
returns whatever the CRUD returns, with no not-found check, so the status is
always 200. -/
def get_task_history_route (db : DB) (taskId uid : Nat) : Nat × List HistoryR :=
  (200, get_history_by_task db taskId uid)

-- ============================================
-- app/crud/task.py: tag string helpers (Python `str` as character list, so
-- the comma-split structure is explicit)
-- ============================================

/-- Python `",".join(ts)`. -/
def joinComma (ts : List PyStr) : PyStr := List.intercalate [','] ts

/-- Python `s.split(",")`. -/
def splitComma : PyStr → List PyStr
  | [] => [[]]
  | c :: cs =>
    match splitComma cs with
    | [] => [[]]
    | t :: ts => if c = ',' then [] :: t :: ts else (c :: t) :: ts

/-- `tags_list_to_string`: `",".join(tags) if tags else ""` on an
`Optional[List[str]]`. -/
def tags_list_to_string (tags : Option (List PyStr)) : PyStr :=
  match tags with
  | some ts => if ts.isEmpty then [] else joinComma ts
  | none => []

/-- `tags_string_to_list`: empty string maps to `[]`; otherwise split on
commas, strip each piece, keep the non-empty ones. -/
def tags_string_to_list (s : PyStr) : List PyStr :=
  if s.isEmpty then []
  else (splitComma s).filterMap
    (fun t => if (pyStrip t).isEmpty then none else some (pyStrip t))

/-- `Task.get_tags_list` from `app/models/task.py`: same computation on the
row's own `tags` column. -/
def TaskR.get_tags_list (t : TaskR) : List PyStr :=
  if t.tags.isEmpty then []
  else (splitComma t.tags).filterMap
    (fun x => if (pyStrip x).isEmpty then none else some (pyStrip x))

/-- `TaskBase.validate_tags` from `app/schemas/task.py`: at most 10 tags,
each at most 30 characters and not blank; returns the stripped tags.  (The
Python loop tests both per-tag conditions tag by tag; only the error message
depends on that interleaving, not acceptance.) -/
def validate_tags (v : Option (List PyStr)) : PyOutcome (Option (List PyStr)) :=
  match v with
  | none => .ok none
  | some ts =>
    if 10 < ts.length then .valueError "Máximo 10 tags permitidos"
    else if ts.any (fun t => 30 < t.length) then
      .valueError "Cada tag debe tener máximo 30 caracteres"
    else if ts.any (fun t => (pyStrip t).isEmpty) then
      .valueError "Los tags no pueden estar vacíos"
    else .ok (some (ts.map pyStrip))

-- ============================================
-- app/crud/contact.py and app/crud/task.py: contact/task CRUD
-- ============================================

/-- `contact_crud.get_contact_by_id`: first contact with this id owned by
the user. -/
def get_contact_by_id (db : DB) (contactId uid : Nat) : Option ContactR :=
  (db.contacts.filter (fun c => c.id = contactId ∧ c.userId = uid)).head?

/-- ORM resolution of an association row to its contact. -/
def resolve_contact (db : DB) (contactId : Nat) : Option ContactR :=
  (db.contacts.filter (fun c => c.id = contactId)).head?

/-- The ORM relationship `task.contacts`: the association rows of the task
resolved to contact records. -/
def task_contacts_of (db : DB) (taskId : Nat) : List ContactR :=
  (db.taskContacts.filter (fun p => p.1 = taskId)).filterMap
    (fun p => resolve_contact db p.2)

/-- The linked contact ids of a task, straight from the association table. -/
def task_contact_ids (db : DB) (taskId : Nat) : List Nat :=
  (db.taskContacts.filter (fun p => p.1 = taskId)).map (fun p => p.2)

/-- Fresh primary key for an insert into `tasks` (autoincrement). -/
def next_task_id (db : DB) : Nat :=
  db.tasks.foldr (fun t m => max t.id m) 0 + 1

/-- `app/schemas/task.py` `TaskCreate` after schema validation
(scheduled_datetime and tags validators are modelled separately; the
datetime is its timestamp here). -/
structure TaskCreateV where
  title : String
  description : Option String
  scheduledDatetime : Int
  tags : Option (List PyStr)
deriving DecidableEq, Repr

/-- `task_crud.create_task`: require every requested contact id to match an
active contact of the same owner, then insert the task and its association
rows. -/
def create_task (db : DB) (inp : TaskCreateV) (uid : Nat)
    (contactIds : List Nat) : CrudResult (DB × TaskR) :=
  let contacts := db.contacts.filter
    (fun c => c.id ∈ contactIds ∧ c.userId = uid ∧ c.isActive)
  if contacts.length ≠ contactIds.length then
    .err "Algunos contactos no existen o no pertenecen al usuario"
  else
    let t : TaskR := { id := next_task_id db, userId := uid, title := inp.title,
                       description := inp.description,
                       scheduledDatetime := inp.scheduledDatetime,
                       status := .pendiente,
                       tags := tags_list_to_string inp.tags,
                       isSent := false, sentAt := none, isActive := true,
                       createdByAi := false }
    .ok ({ db with
             tasks := db.tasks ++ [t],
             taskContacts := db.taskContacts ++
               contacts.map (fun c => (next_task_id db, c.id)) }, t)

/-- `task_crud.remove_contacts_from_task`: missing/non-owned task returns
`None`; otherwise the task's contact list is replaced by the contacts not in
the removal set, and if that leaves fewer than one contact a `ValueError` is
raised before the commit, so the committed state is unchanged. -/
def remove_contacts_from_task (db : DB) (taskId uid : Nat)
    (contactIds : List Nat) : CrudResult DB :=
  match get_task_by_id db taskId uid with
  | none => .notFound
  | some _ =>
    let remaining := (task_contacts_of db taskId).filter
      (fun c => c.id ∉ contactIds)
    if remaining.length < 1 then .err "La tarea debe tener al menos un contacto"
    else .ok { db with taskContacts :=
        db.taskContacts.filter (fun p => p.1 ≠ taskId) ++
          remaining.map (fun c => (taskId, c.id)) }

/-- `task_history_crud.create_history_entry`: append one history row.  The
autoincrement id and `created_at` clock are modelled by the table length. -/
def create_history_entry (db : DB) (taskId : Nat) (userId : Option Nat)
    (action : String) (fieldChanged oldValue newValue notes : Option String) : DB :=
  { db with history := db.history ++
      [{ id := db.history.length + 1, taskId := taskId, userId := userId,
         action := action, fieldChanged := fieldChanged, oldValue := oldValue,
         newValue := newValue, notes := notes,
         createdAt := db.history.length }] }

/-- `DELETE /tasks/{task_id}/contacts` from `app/api/routes/tasks.py`: `None`
from the CRUD becomes 404; a `ValueError` becomes HTTPException 400 and the
request session is closed without commit, leaving the database unchanged; on
success a history entry is appended and 200 returned. -/
def remove_contacts_from_task_route (db : DB) (taskId uid : Nat)
    (contactIds : List Nat) : Nat × DB :=
  match remove_contacts_from_task db taskId uid contactIds with
  | .notFound => (404, db)
  | .err _ => (400, db)
  | .ok db' => (200, create_history_entry db' taskId (some uid)
      "contacto_eliminado" none none (some "Contactos eliminados") none)

/-- `contact_crud.delete_contact` (soft delete): set `is_active = False` on
the owned contact; association rows untouched. -/
def delete_contact (db : DB) (contactId uid : Nat) : Bool × DB :=
  match get_contact_by_id db contactId uid with
  | none => (false, db)
  | some _ =>
    (true, { db with
               contacts := db.contacts.map
                 (fun x => if x.id = contactId ∧ x.userId = uid then
                     { x with isActive := false } else x) })

/-- `contact_crud.hard_delete_contact`: `db.delete(contact)` removes the row
permanently; the `ondelete="CASCADE"` on `task_contacts.contact_id` deletes
the task association rows with it.  No check on the tasks that referenced
the contact. -/
def hard_delete_contact (db : DB) (contactId uid : Nat) : Bool × DB :=
  match get_contact_by_id db contactId uid with
  | none => (false, db)
  | some c =>
    (true, { db with
               contacts := db.contacts.filter (fun x => x.id ≠ c.id),
               taskContacts := db.taskContacts.filter (fun p => p.2 ≠ c.id) })

-- ============================================
-- Helper: `.first()` of a filter is `some` exactly when a row matches
-- ============================================

theorem head?_filter_isSome (p : α → Bool) (l : List α) :
    ((l.filter p).head?).isSome = true ↔ ∃ a ∈ l, p a := by
  induction l with
  | nil => simp
  | cons x xs ih =>
    by_cases h : p x = true
    · simp [List.filter_cons, h]
    · simp [List.filter_cons, h, ih]

theorem head?_filter_eq_none (p : α → Bool) (l : List α) :
    (l.filter p).head? = none ↔ ∀ a ∈ l, ¬ p a := by
  rw [← Option.not_isSome_iff_eq_none]
  simp only [head?_filter_isSome]
  push_neg
  simp

-- ============================================
-- Concrete databases for evaluation theorems
-- ============================================

/-- A single active user, as stored after registration. -/
def user1 : UserR :=
  { id := 1, email := "john@example.com", username := "john",
    hashedPassword := "h", isActive := true, isSuperuser := false }

/-- Database holding only `user1`. -/
def db1 : DB := { users := [user1], contacts := [], tasks := [], taskContacts := [], history := [] }

/-- Claim C1: a refresh token produced by `create_refresh_token` (payload
type "refresh") presented as the access credential is NOT rejected:
`get_current_user` authenticates it, because neither `decode_access_token`
nor `get_current_user` ever inspects the `type` claim.  This theorem
evaluates the code at the failing input: a fresh refresh token for the
active user 1 authenticates as user 1 instead of raising HTTP 401. -/
theorem C1_refresh_token_accepted_as_access :
    (create_refresh_token (some "1") (some "john") 1000 none 7).payload.type = "refresh"
    ∧ get_current_user db1 1000 (create_refresh_token (some "1") (some "john") 1000 none 7)
        = .ok user1 := by
  exact ⟨rfl, by decide⟩

/-- Claim C7: the scheduled_datetime validator compares the input with the
naive `datetime.now()`.  A naive past datetime is rejected with a validation
error (422), as the claim says; but a timezone-aware datetime — past or even
future, including the documented example format "...Z" — makes the
comparison raise `TypeError`, which is not a validation error (it surfaces
as a 500).  Evaluation at the failing input (aware past datetime), at a
naive past datetime, and at an aware future datetime. -/
theorem C7_aware_datetime_raises_typeerror :
    scheduled_datetime_request_status 1000 { aware := true, value := 0 } = 500
    ∧ scheduled_datetime_request_status 1000 { aware := false, value := 0 } = 422
    ∧ scheduled_datetime_request_status 1000 { aware := true, value := 2000 } = 500
    ∧ scheduled_datetime_request_status 1000 { aware := false, value := 2000 } = 201 := by
  refine ⟨rfl, rfl, rfl, rfl⟩

-- ============================================
-- C3: registration conflict detection
-- ============================================

/-- Database for C3: one registered user. -/
def db3 : DB :=
  { users := [{ id := 1, email := "john@example.com", username := "john",
                hashedPassword := "h", isActive := true, isSuperuser := false }],
    contacts := [], tasks := [], taskContacts := [], history := [] }

/-- Registration input differing from the stored user only in letter case
(email local part and username). -/
def inp3 : UserCreateV :=
  { email := "JOHN@example.com", username := "John", fullName := none,
    password := "secret123" }

/-- Claim C3 counterexample: a registration whose email and username differ
from an existing user's only in upper/lower case is NOT rejected: both
lookups use exact string equality, so `register_user` creates a second
user instead of failing with a conflict. -/
theorem C3_case_duplicate_registration_accepted :
    (db3.users.map (fun u => u.email.data.map Char.toLower)
        = [inp3.email.data.map Char.toLower])
    ∧ (db3.users.map (fun u => u.username.data.map Char.toLower)
        = [inp3.username.data.map Char.toLower])
    ∧ register_user db3 inp3 =
        .created { db3 with users := db3.users ++
                     [{ id := 2, email := "JOHN@example.com", username := "John",
                        hashedPassword := "secret123", isActive := true,
                        isSuperuser := false }] }
                 { id := 2, email := "JOHN@example.com", username := "John",
                   hashedPassword := "secret123", isActive := true,
                   isSuperuser := false } := by
  refine ⟨by decide, by decide, by decide⟩

/-- Claim C3 amended: registration fails with a conflict (HTTP 400) exactly
when an existing user's email or username equals the request's email or
username by exact, case-sensitive string comparison; otherwise — including
when the request differs from an existing email or username only in letter
case — a new user is created. -/
theorem C3_conflict_iff_exact_match (db : DB) (inp : UserCreateV) :
    ((∃ u ∈ db.users, u.email = inp.email ∨ u.username = inp.username) →
        register_user db inp = .conflict 400)
    ∧ ((∀ u ∈ db.users, u.email ≠ inp.email ∧ u.username ≠ inp.username) →
        ∃ newU, register_user db inp = .created { db with users := db.users ++ [newU] } newU
          ∧ newU.email = inp.email ∧ newU.username = inp.username) := by
  constructor
  · rintro ⟨u, hu, h | h⟩
    · have hsome : ((db.users.filter (fun v => v.email = inp.email)).head?).isSome = true := by
        rw [head?_filter_isSome]
        exact ⟨u, hu, by simp [h]⟩
      unfold register_user get_user_by_email
      rcases hopt : (db.users.filter (fun v => v.email = inp.email)).head? with _ | v
      · rw [hopt] at hsome; simp at hsome
      · rw [hopt]
    · unfold register_user get_user_by_email get_user_by_username
      rcases hopt : (db.users.filter (fun v => v.email = inp.email)).head? with _ | v
      · rw [hopt]
        have hsome : ((db.users.filter (fun v => v.username = inp.username)).head?).isSome = true := by
          rw [head?_filter_isSome]
          exact ⟨u, hu, by simp [h]⟩
        rcases hopt2 : (db.users.filter (fun v => v.username = inp.username)).head? with _ | w
        · rw [hopt2] at hsome; simp at hsome
        · rw [hopt2]
      · rw [hopt]
  · intro hall
    refine ⟨(create_user db inp).2, ?_, rfl, rfl⟩
    have he : (db.users.filter (fun v => v.email = inp.email)).head? = none := by
      rw [head?_filter_eq_none]
      intro a ha
      simp [(hall a ha).1]
    have hn : (db.users.filter (fun v => v.username = inp.username)).head? = none := by
      rw [head?_filter_eq_none]
      intro a ha
      simp [(hall a ha).2]
    unfold register_user get_user_by_email get_user_by_username
    rw [he, hn]
    rfl

/-- Witness for the amended C3 theorem at concrete inputs: an exact
duplicate email is rejected. -/
theorem C3_conflict_iff_exact_match_witness :
    register_user db3 { email := "john@example.com", username := "other",
                        fullName := none, password := "pw123456" } = .conflict 400 := by
  apply (C3_conflict_iff_exact_match db3 _).1
  refine ⟨{ id := 1, email := "john@example.com", username := "john",
            hashedPassword := "h", isActive := true, isSuperuser := false }, ?_, ?_⟩
  · simp [db3]
  · left; rfl

-- ============================================
-- C8: task history route for missing / non-owned tasks
-- ============================================

/-- Database for C8: user 1 owns task 1, which has one history row. -/
def db8 : DB :=
  { users := [{ id := 1, email := "a@b.com", username := "a",
                hashedPassword := "h", isActive := true, isSuperuser := false },
              { id := 2, email := "c@d.com", username := "c",
                hashedPassword := "h", isActive := true, isSuperuser := false }],
    contacts := [],
    tasks := [{ id := 1, userId := 1, title := "t", description := none,
                scheduledDatetime := 10, status := .pendiente, tags := [],
                isSent := false, sentAt := none, isActive := true,
                createdByAi := false }],
    taskContacts := [],
    history := [{ id := 1, taskId := 1, userId := some 1, action := "creada",
                  fieldChanged := none, oldValue := none, newValue := none,
                  notes := none, createdAt := 0 }] }

/-- Claim C8 counterexample: `GET /tasks/{task_id}/history` does NOT answer
404 for a wrong or non-owned task id.  For a non-existent task id, and for
an existing task queried by a non-owner, the route returns HTTP 200 with an
empty list. -/
theorem C8_history_not_found_returns_200 :
    get_task_by_id db8 99 1 = none
    ∧ get_task_history_route db8 99 1 = (200, [])
    ∧ get_task_by_id db8 1 2 = none
    ∧ get_task_history_route db8 1 2 = (200, []) := by
  refine ⟨by decide, by decide, by decide, by decide⟩

/-- Claim C8 amended: for every task_id that does not exist or is not owned
by the caller, `GET /tasks/{task_id}/history` responds HTTP 200 with an
empty history list (the CRUD returns `[]` when the ownership re-query finds
no task, and the route performs no not-found check), unlike the other task
resources, which respond 404. -/
theorem C8_history_missing_task_yields_200_empty (db : DB) (taskId uid : Nat)
    (h : get_task_by_id db taskId uid = none) :
    get_task_history_route db taskId uid = (200, []) := by
  unfold get_task_history_route get_history_by_task
  unfold get_task_by_id at h
  rw [h]

/-- Witness for the amended C8 theorem at a concrete input. -/
theorem C8_history_missing_task_yields_200_empty_witness :
    get_task_history_route db8 99 1 = (200, []) :=
  C8_history_missing_task_yields_200_empty db8 99 1 (by decide)

-- ============================================
-- C2: removing all of a task's contacts is rejected, state unchanged
-- ============================================

/-- Claim C2: for every task whose linked contact set is C and every removal
request covering all of C, `remove_contacts_from_task` raises `ValueError`
before committing (surfaced as HTTP 400 by the route), and the committed
database — in particular the task's contact set — is unchanged. -/
theorem C2_remove_all_contacts_rejected (db : DB) (taskId uid : Nat)
    (r : List Nat)
    (htask : (get_task_by_id db taskId uid).isSome = true)
    (hcov : ∀ c ∈ task_contacts_of db taskId, c.id ∈ r) :
    remove_contacts_from_task db taskId uid r
      = .err "La tarea debe tener al menos un contacto"
    ∧ remove_contacts_from_task_route db taskId uid r = (400, db) := by
  obtain ⟨t, ht⟩ := Option.isSome_iff_exists.mp htask
  have hrem : (task_contacts_of db taskId).filter (fun c => decide (c.id ∉ r)) = [] := by
    rw [List.filter_eq_nil_iff]
    intro c hc
    simp [hcov c hc]
  have h1 : remove_contacts_from_task db taskId uid r
      = .err "La tarea debe tener al menos un contacto" := by
    simp only [remove_contacts_from_task, ht]
    rw [hrem]
    rfl
  refine ⟨h1, ?_⟩
  unfold remove_contacts_from_task_route
  rw [h1]

/-- Database for the C2 witness: user 1, contact 10, task 1 linked to the
single contact 10. -/
def db2 : DB :=
  { users := [{ id := 1, email := "a@b.com", username := "a",
                hashedPassword := "h", isActive := true, isSuperuser := false }],
    contacts := [{ id := 10, userId := 1, name := "A",
                   channelType := .whatsapp,
                   channelValue := "+1234567890".data, isActive := true }],
    tasks := [{ id := 1, userId := 1, title := "t", description := none,
                scheduledDatetime := 10, status := .pendiente, tags := [],
                isSent := false, sentAt := none, isActive := true,
                createdByAi := false }],
    taskContacts := [(1, 10)],
    history := [] }

/-- Witness for C2 at a concrete input: removing the only linked contact of
task 1 is rejected with 400 and the database is unchanged. -/
theorem C2_remove_all_contacts_rejected_witness :
    remove_contacts_from_task db2 1 1 [10]
      = .err "La tarea debe tener al menos un contacto"
    ∧ remove_contacts_from_task_route db2 1 1 [10] = (400, db2) :=
  C2_remove_all_contacts_rejected db2 1 1 [10] (by decide) (by decide)

-- ============================================
-- C5: the ≥1-linked-contact invariant and hard contact deletion
-- ============================================

/-- Database for the C5 counterexample: task 1 of user 1 has contact 10 as
its only linked contact. -/
def db5 : DB :=
  { users := [{ id := 1, email := "a@b.com", username := "a",
                hashedPassword := "h", isActive := true, isSuperuser := false }],
    contacts := [{ id := 10, userId := 1, name := "A",
                   channelType := .whatsapp,
                   channelValue := "+1234567890".data, isActive := true }],
    tasks := [{ id := 1, userId := 1, title := "t", description := none,
                scheduledDatetime := 10, status := .pendiente, tags := [],
                isSent := false, sentAt := none, isActive := true,
                createdByAi := false }],
    taskContacts := [(1, 10)],
    history := [] }

/-- Claim C5 counterexample: hard-deleting (permanently) a contact that is
some task's only linked contact succeeds and leaves that task with zero
linked contacts, violating the claimed invariant.  Task 1 starts with
exactly contact 10, the hard delete succeeds, and afterwards task 1 still
exists with an empty contact set. -/
theorem C5_hard_delete_breaks_invariant :
    task_contact_ids db5 1 = [10]
    ∧ (hard_delete_contact db5 10 1).1 = true
    ∧ task_contact_ids (hard_delete_contact db5 10 1).2 1 = []
    ∧ ((get_task_by_id (hard_delete_contact db5 10 1).2 1 1).isSome = true) := by
  refine ⟨by decide, by decide, by decide, by decide⟩

/-- Claim C5 amended: the ≥1-linked-contact invariant is established at
creation and preserved by `remove_contacts_from_task` and by contact soft
delete, but NOT by permanent contact deletion: (a) a successfully created
task with a non-empty requested contact-id list has a non-empty linked
contact set; (b) a successful contact removal leaves the task with a
non-empty contact set and every other task's contact set unchanged; (c)
soft-deleting a contact leaves the whole association table unchanged.
(Hard deletion breaks the invariant, as the counterexample shows.) -/
theorem C5_invariant_other_operations :
    (∀ (db : DB) (inp : TaskCreateV) (uid : Nat) (cids : List Nat)
        (db' : DB) (t : TaskR), cids ≠ [] →
        create_task db inp uid cids = .ok (db', t) →
        task_contact_ids db' t.id ≠ [])
    ∧ (∀ (db : DB) (taskId uid : Nat) (r : List Nat) (db' : DB),
        remove_contacts_from_task db taskId uid r = .ok db' →
        task_contact_ids db' taskId ≠ []
        ∧ ∀ tid2, tid2 ≠ taskId →
            task_contact_ids db' tid2 = task_contact_ids db tid2)
    ∧ (∀ (db : DB) (contactId uid : Nat),
        ((delete_contact db contactId uid).2).taskContacts = db.taskContacts) := by
  refine ⟨?_, ?_, ?_⟩
  · intro db inp uid cids db' t hne hok
    simp only [create_task] at hok
    split at hok
    · exact CrudResult.noConfusion hok
    · rename_i hlen
      have hlen2 : (db.contacts.filter
          (fun c => decide (c.id ∈ cids ∧ c.userId = uid ∧ c.isActive = true))).length
          = cids.length := by
        by_contra hcon
        exact hlen hcon
      have hcontacts : (db.contacts.filter
          (fun c => decide (c.id ∈ cids ∧ c.userId = uid ∧ c.isActive = true))) ≠ [] := by
        intro hnil
        rw [hnil] at hlen2
        exact hne (List.length_eq_zero.mp hlen2.symm)
      rw [CrudResult.ok.injEq, Prod.mk.injEq] at hok
      obtain ⟨hdb, hT⟩ := hok
      subst hdb
      subst hT
      unfold task_contact_ids
      rw [List.filter_append]
      intro hnil
      rw [List.map_eq_nil_iff, List.append_eq_nil] at hnil
      have hright := hnil.2
      rw [List.filter_eq_nil_iff] at hright
      obtain ⟨c, hc⟩ := List.exists_mem_of_ne_nil _ hcontacts
      exact hright (next_task_id db, c.id) (List.mem_map_of_mem _ hc) (by simp)
  · intro db taskId uid r db' hok
    simp only [remove_contacts_from_task] at hok
    split at hok
    · exact CrudResult.noConfusion hok
    · split at hok
      · exact CrudResult.noConfusion hok
      · rename_i hlen
        rw [CrudResult.ok.injEq] at hok
        subst hok
        have hBfull : ∀ tid2,
            (((task_contacts_of db taskId).filter (fun c => decide (c.id ∉ r))).map
              (fun c => (taskId, c.id))).filter (fun p => decide (p.1 = tid2))
            = if taskId = tid2 then
                ((task_contacts_of db taskId).filter (fun c => decide (c.id ∉ r))).map
                  (fun c => (taskId, c.id))
              else [] := by
          intro tid2
          by_cases heq : taskId = tid2
          · rw [if_pos heq, List.filter_eq_self]
            intro p hp
            obtain ⟨c, _, rfl⟩ := List.mem_map.mp hp
            simp [heq]
          · rw [if_neg heq, List.filter_eq_nil_iff]
            intro p hp
            obtain ⟨c, _, rfl⟩ := List.mem_map.mp hp
            simp [heq]
        constructor
        · unfold task_contact_ids
          rw [List.filter_append, hBfull taskId, if_pos rfl]
          intro hnil
          rw [List.map_eq_nil_iff, List.append_eq_nil] at hnil
          have hlen0 : ((task_contacts_of db taskId).filter
              (fun c => decide (c.id ∉ r))).length = 0 := by
            have := congrArg List.length hnil.2
            simpa using this
          omega
        · intro tid2 hne2
          unfold task_contact_ids
          rw [List.filter_append, hBfull tid2, if_neg (fun h => hne2 h.symm),
            List.append_nil, List.filter_filter]
          congr 1
          apply List.filter_congr
          intro p _
          by_cases hp : p.1 = tid2
          · simp [hp, hne2]
          · simp [hp]
  · intro db contactId uid
    unfold delete_contact
    rcases hc : get_contact_by_id db contactId uid with _ | c <;> rfl

/-- Database for the C5 witness: user 1 with contacts 10 and 11; task 1 is
linked to both. -/
def db5w : DB :=
  { users := [{ id := 1, email := "a@b.com", username := "a",
                hashedPassword := "h", isActive := true, isSuperuser := false }],
    contacts := [{ id := 10, userId := 1, name := "A",
                   channelType := .whatsapp,
                   channelValue := "+1234567890".data, isActive := true },
                 { id := 11, userId := 1, name := "B",
                   channelType := .telegram,
                   channelValue := "@usern".data, isActive := true }],
    tasks := [{ id := 1, userId := 1, title := "t", description := none,
                scheduledDatetime := 10, status := .pendiente, tags := [],
                isSent := false, sentAt := none, isActive := true,
                createdByAi := false }],
    taskContacts := [(1, 10), (1, 11)],
    history := [] }

/-- Witness for the amended C5 theorem at concrete inputs: a creation with
one contact yields a non-empty linked set, removing one of two linked
contacts keeps the set non-empty, and soft delete keeps the association
table. -/
theorem C5_invariant_other_operations_witness :
    task_contact_ids
      { db5w with
          tasks := db5w.tasks ++
            [{ id := 2, userId := 1, title := "n", description := none,
               scheduledDatetime := 20, status := .pendiente, tags := [],
               isSent := false, sentAt := none, isActive := true,
               createdByAi := false }],
          taskContacts := db5w.taskContacts ++ [(2, 10)] } 2 ≠ []
    ∧ task_contact_ids
        { db5w with taskContacts := [(1, 10)] } 1 ≠ []
    ∧ ((delete_contact db5w 10 1).2).taskContacts = db5w.taskContacts := by
  refine ⟨?_, ?_, ?_⟩
  · exact C5_invariant_other_operations.1 db5w
      { title := "n", description := none, scheduledDatetime := 20, tags := some [] }
      1 [10] _
      { id := 2, userId := 1, title := "n", description := none,
        scheduledDatetime := 20, status := .pendiente, tags := [],
        isSent := false, sentAt := none, isActive := true,
        createdByAi := false }
      (by decide) (by decide)
  · exact (C5_invariant_other_operations.2.1 db5w 1 1 [11] _ (by decide)).1
  · exact C5_invariant_other_operations.2.2 db5w 10 1

-- ============================================
-- C4: soft-deleted contacts in listings and id lookup
-- ============================================

/-- Lexicographic comparison of character lists by code point (the string
ordering used for `ORDER BY Contact.name`; only the multiset of returned
rows matters to the claims). -/
def charListLe : List Char → List Char → Bool
  | [], _ => true
  | _ :: _, [] => false
  | a :: as, b :: bs =>
    if a.toNat < b.toNat then true
    else if b.toNat < a.toNat then false
    else charListLe as bs

/-- `contact_crud.get_contacts_by_user`: filter by owner, then apply the
`is_active` and `channel_type` filters only when the parameters are not
`None`, order by name, and paginate with offset/limit. -/
def get_contacts_by_user (db : DB) (uid : Nat) (skip limit : Nat)
    (isActive : Option Bool) (channelType : Option ChannelTypeV) : List ContactR :=
  let q := db.contacts.filter (fun c => c.userId = uid)
  let q := match isActive with
    | none => q
    | some b => q.filter (fun c => c.isActive = b)
  let q := match channelType with
    | none => q
    | some ct => q.filter (fun c => c.channelType = ct)
  ((orderBy (fun a b => charListLe a.name.data b.name.data) q).drop skip).take limit

/-- Database for C4: user 1 owns one soft-deleted contact; user 2 exists. -/
def db4 : DB :=
  { users := [{ id := 1, email := "a@b.com", username := "a",
                hashedPassword := "h", isActive := true, isSuperuser := false },
              { id := 2, email := "c@d.com", username := "c",
                hashedPassword := "h", isActive := true, isSuperuser := false }],
    contacts := [{ id := 1, userId := 1, name := "A",
                   channelType := .whatsapp,
                   channelValue := "+1234567890".data, isActive := false }],
    tasks := [], taskContacts := [], history := [] }

/-- Claim C4 counterexample: the default listing (`GET /contacts/` with no
`is_active` query parameter, i.e. `get_contacts_by_user` with
`is_active=None` and the route defaults skip=0, limit=100) DOES include a
soft-deleted contact: with `is_active=None` no activity filter is applied
(the route documents `null` as "todas").  The id-lookup half of the claim
holds: the owner retrieves it, another user gets `None`. -/
theorem C4_soft_deleted_contact_listed_by_default :
    (db4.contacts.head?.map (fun c => c.isActive) = some false)
    ∧ get_contacts_by_user db4 1 0 100 none none = db4.contacts
    ∧ get_contact_by_id db4 1 1 = db4.contacts.head?
    ∧ get_contact_by_id db4 1 2 = none := by
  refine ⟨by decide, by decide, by decide, by decide⟩

/-- Claim C4 amended: a soft-deleted contact is NOT excluded from the
default listing — with `is_active=None` the listing applies no activity
filter, so the contact appears (here stated for the first listing page,
`skip=0`, with the owner's contacts fitting within `limit`); direct id
lookup returns it for its owner and `None` for every other user (stated
for databases with pairwise distinct contact ids). -/
theorem C4_soft_deleted_contact_default_listing_and_lookup
    (db : DB) (c : ContactR) (limit : Nat)
    (hmem : c ∈ db.contacts) (hinact : c.isActive = false)
    (hids : (db.contacts.map (fun x => x.id)).Nodup)
    (hlim : (db.contacts.filter (fun x => x.userId = c.userId)).length ≤ limit) :
    c ∈ get_contacts_by_user db c.userId 0 limit none none
    ∧ get_contact_by_id db c.id c.userId = some c
    ∧ ∀ uid2, uid2 ≠ c.userId → get_contact_by_id db c.id uid2 = none := by
  have huniq : ∀ x ∈ db.contacts, x.id = c.id → x = c := by
    intro x hx hid
    exact List.inj_on_of_nodup_map hids hx hmem hid
  refine ⟨?_, ?_, ?_⟩
  · show c ∈ ((orderBy (fun a b => charListLe a.name.data b.name.data)
        (db.contacts.filter (fun x => x.userId = c.userId))).drop 0).take limit
    rw [List.drop_zero, List.take_of_length_le (by rw [length_orderBy]; exact hlim)]
    rw [mem_orderBy, List.mem_filter]
    exact ⟨hmem, by simp⟩
  · unfold get_contact_by_id
    have hne : db.contacts.filter (fun x => decide (x.id = c.id ∧ x.userId = c.userId)) ≠ [] := by
      intro hnil
      rw [List.filter_eq_nil_iff] at hnil
      exact hnil c hmem (by simp)
    rcases hh : (db.contacts.filter
        (fun x => decide (x.id = c.id ∧ x.userId = c.userId))).head? with _ | x
    · rw [List.head?_eq_none_iff] at hh
      exact absurd hh hne
    · have hxmem : x ∈ db.contacts.filter
          (fun y => decide (y.id = c.id ∧ y.userId = c.userId)) :=
        List.mem_of_mem_head? hh
      rw [List.mem_filter] at hxmem
      have hxc : x = c := huniq x hxmem.1 (by
        have := hxmem.2
        simp at this
        exact this.1)
      rw [hxc] at hh
      exact hh
  · intro uid2 hne2
    unfold get_contact_by_id
    rw [head?_filter_eq_none]
    intro x hx
    simp only [decide_eq_true_eq, not_and]
    intro hid
    rw [huniq x hx hid]
    exact fun h => hne2 h.symm

/-- Witness for the amended C4 theorem at concrete inputs. -/
theorem C4_soft_deleted_contact_default_listing_and_lookup_witness :
    ({ id := 1, userId := 1, name := "A", channelType := .whatsapp,
       channelValue := "+1234567890".data, isActive := false } : ContactR)
      ∈ get_contacts_by_user db4 1 0 100 none none
    ∧ get_contact_by_id db4 1 1 =
        some { id := 1, userId := 1, name := "A", channelType := .whatsapp,
               channelValue := "+1234567890".data, isActive := false }
    ∧ get_contact_by_id db4 1 2 = none := by
  have h := C4_soft_deleted_contact_default_listing_and_lookup db4
    { id := 1, userId := 1, name := "A", channelType := .whatsapp,
      channelValue := "+1234567890".data, isActive := false } 100
    (by decide) (by decide) (by decide) (by decide)
  exact ⟨h.1, h.2.1, h.2.2 2 (by decide)⟩

-- ============================================
-- C10: the general task update and the contact set
-- ============================================

/-- A value of the `model_dump` dictionary of `TaskUpdate`. -/
inductive PyVal
  | str (s : String)
  | dt (d : Int)
  | tagList (ts : List PyStr)
  | status (st : TaskStatusV)
  | bool (b : Bool)
  | natList (l : List Nat)
deriving DecidableEq, Repr

/-- `app/schemas/task.py` `TaskUpdate`: every field optional (`none` = not
supplied).  It declares `add_contact_ids` and `remove_contact_ids` — and no
`contact_ids` field. -/
structure TaskUpdate where
  title : Option String := none
  description : Option String := none
  scheduledDatetime : Option Int := none
  tags : Option (List PyStr) := none
  status : Option TaskStatusV := none
  isSent : Option Bool := none
  sentAt : Option Int := none
  addContactIds : Option (List Nat) := none
  removeContactIds : Option (List Nat) := none
deriving DecidableEq, Repr

/-- One key of `model_dump(exclude_unset=True)`: present exactly when the
field was supplied. -/
def optEntry (key : String) (f : α → PyVal) : Option α → List (String × PyVal)
  | some v => [(key, f v)]
  | none => []

/-- `task_update.model_dump(exclude_unset=True)` as an association list. -/
def TaskUpdate.dump (u : TaskUpdate) : List (String × PyVal) :=
  optEntry "title" PyVal.str u.title ++
    (optEntry "description" PyVal.str u.description ++
      (optEntry "scheduled_datetime" PyVal.dt u.scheduledDatetime ++
        (optEntry "tags" PyVal.tagList u.tags ++
          (optEntry "status" PyVal.status u.status ++
            (optEntry "is_sent" PyVal.bool u.isSent ++
              (optEntry "sent_at" PyVal.dt u.sentAt ++
                (optEntry "add_contact_ids" PyVal.natList u.addContactIds ++
                  optEntry "remove_contact_ids" PyVal.natList u.removeContactIds)))))))

/-- `setattr(db_task, field, value)` for one `update_data` entry.  Mapped
columns update the row — with the conversions `update_task` applies to the
dictionary first (`status` enum to its value, `tags` list joined by
`tags_list_to_string`) folded in.  `add_contact_ids` and
`remove_contact_ids` are not mapped columns of `Task`, so assigning them
leaves the row unchanged. -/
def set_task_attr (t : TaskR) (key : String) (v : PyVal) : TaskR :=
  match key, v with
  | "title", .str s => { t with title := s }
  | "description", .str s => { t with description := some s }
  | "scheduled_datetime", .dt d => { t with scheduledDatetime := d }
  | "tags", .tagList ts => { t with tags := tags_list_to_string (some ts) }
  | "status", .status st => { t with status := st }
  | "is_sent", .bool b => { t with isSent := b }
  | "sent_at", .dt d => { t with sentAt := some d }
  | _, _ => t

/-- `task_crud.update_task`: fetch the owned task, take the set fields of
the update, and only if the dictionary has a `contact_ids` key replace the
task's contacts (validating ownership); all other keys are applied with
`setattr`.  `TaskUpdate` never produces a `contact_ids` key, so for every
schema-validated request the replacement branch is dead. -/
def update_task (db : DB) (taskId uid : Nat) (u : TaskUpdate) : CrudResult DB :=
  match get_task_by_id db taskId uid with
  | none => .notFound
  | some t =>
    let ud := u.dump
    match (ud.filter (fun kv => kv.1 = "contact_ids")).head? with
    | some (_, .natList cids) =>
      let contacts := db.contacts.filter
        (fun c => c.id ∈ cids ∧ c.userId = uid ∧ c.isActive)
      if contacts.length ≠ cids.length then
        .err "Algunos contactos no existen o no pertenecen al usuario"
      else
        let rest := ud.filter (fun kv => kv.1 ≠ "contact_ids")
        let t2 := rest.foldl (fun acc kv => set_task_attr acc kv.1 kv.2) t
        .ok { db with
                tasks := db.tasks.map (fun x => if x.id = taskId then t2 else x),
                taskContacts := db.taskContacts.filter (fun p => p.1 ≠ taskId) ++
                  contacts.map (fun c => (taskId, c.id)) }
    | _ =>
      let t2 := ud.foldl (fun acc kv => set_task_attr acc kv.1 kv.2) t
      .ok { db with tasks := db.tasks.map (fun x => if x.id = taskId then t2 else x) }

/-- `PUT /tasks/{task_id}` from `app/api/routes/tasks.py`: 404 when the CRUD
returns `None`, 400 on `ValueError` (session discarded), 200 with the
committed state otherwise. -/
def update_task_route (db : DB) (taskId uid : Nat) (u : TaskUpdate) : Nat × DB :=
  match update_task db taskId uid u with
  | .notFound => (404, db)
  | .err _ => (400, db)
  | .ok db' => (200, db')

/-- Every pair contributed by one `optEntry` carries that entry's key. -/
theorem mem_optEntry {f : α → PyVal} {o : Option α} {kv : String × PyVal}
    {key : String} (h : kv ∈ optEntry key f o) : kv.1 = key := by
  cases o with
  | none => cases h
  | some v =>
    rw [optEntry, List.mem_singleton] at h
    rw [h]

/-- The dump of a `TaskUpdate` never contains a `contact_ids` key. -/
theorem dump_no_contact_ids (u : TaskUpdate) :
    (u.dump.filter (fun kv => kv.1 = "contact_ids")).head? = none := by
  rw [head?_filter_eq_none]
  intro kv hkv
  simp only [TaskUpdate.dump, List.mem_append] at hkv
  have hne : kv.1 ≠ "contact_ids" := by
    rcases hkv with h | h | h | h | h | h | h | h | h <;>
      · rw [mem_optEntry h]; decide
  simpa using hne

set_option maxHeartbeats 3200000 in
/-- Applying a dump with `set_task_attr` writes exactly the supplied mapped
fields; `add_contact_ids` / `remove_contact_ids` entries have no effect on
the row. -/
theorem fold_dump_fields (u : TaskUpdate) (t : TaskR) :
    (u.dump.foldl (fun acc kv => set_task_attr acc kv.1 kv.2) t).title
        = u.title.getD t.title
    ∧ (u.dump.foldl (fun acc kv => set_task_attr acc kv.1 kv.2) t).status
        = u.status.getD t.status
    ∧ (u.dump.foldl (fun acc kv => set_task_attr acc kv.1 kv.2) t).isSent
        = u.isSent.getD t.isSent := by
  obtain ⟨t1, d2, s3, g4, st5, is6, sa7, a8, r9⟩ := u
  cases t1 <;> cases d2 <;> cases s3 <;> cases g4 <;> cases st5 <;>
    cases is6 <;> cases sa7 <;> cases a8 <;> cases r9 <;> exact ⟨rfl, rfl, rfl⟩

/-- `update_task` on a `TaskUpdate` never reaches the contact-replacement
branch: it is `.notFound` for a missing task, and otherwise rewrites only
the task row. -/
theorem update_task_eq_of_schema (db : DB) (taskId uid : Nat) (u : TaskUpdate) :
    update_task db taskId uid u =
      match get_task_by_id db taskId uid with
      | none => .notFound
      | some t => .ok { db with
          tasks := db.tasks.map (fun x =>
              if x.id = taskId then
                u.dump.foldl (fun acc kv => set_task_attr acc kv.1 kv.2) t
              else x) } := by
  simp only [update_task]
  rcases get_task_by_id db taskId uid with _ | t
  · rfl
  · rw [dump_no_contact_ids]

/-- Claim C10: the general PUT task update never changes the task's linked
contact set, whatever `add_contact_ids` / `remove_contact_ids` values are
supplied — `update_task` only reacts to a `contact_ids` key, which the
`TaskUpdate` schema never produces — while supplied mapped fields (title,
status, is_sent shown here) are applied. -/
theorem C10_update_task_ignores_contact_changes (db : DB) (taskId uid : Nat)
    (u : TaskUpdate) :
    ((update_task_route db taskId uid u).2).taskContacts = db.taskContacts
    ∧ (∀ t, get_task_by_id db taskId uid = some t →
        ∃ t2, update_task db taskId uid u =
            .ok { db with
                  tasks := db.tasks.map (fun x => if x.id = taskId then t2 else x) }
          ∧ t2.title = u.title.getD t.title
          ∧ t2.status = u.status.getD t.status
          ∧ t2.isSent = u.isSent.getD t.isSent) := by
  constructor
  · unfold update_task_route
    rw [update_task_eq_of_schema]
    rcases get_task_by_id db taskId uid with _ | t
    · rfl
    · rfl
  · intro t ht
    refine ⟨u.dump.foldl (fun acc kv => set_task_attr acc kv.1 kv.2) t, ?_, ?_, ?_, ?_⟩
    · rw [update_task_eq_of_schema, ht]
    · exact (fold_dump_fields u t).1
    · exact (fold_dump_fields u t).2.1
    · exact (fold_dump_fields u t).2.2

/-- Witness for C10 at a concrete input: an update supplying a new title,
`is_sent`, and `remove_contact_ids` covering the task's only contact leaves
the association table unchanged and applies the title. -/
theorem C10_update_task_ignores_contact_changes_witness :
    ((update_task_route db5w 1 1
        { title := some "renamed", removeContactIds := some [10, 11] }).2).taskContacts
      = db5w.taskContacts
    ∧ ∃ t2, update_task db5w 1 1
          { title := some "renamed", removeContactIds := some [10, 11] }
        = .ok { db5w with
                tasks := db5w.tasks.map (fun x => if x.id = 1 then t2 else x) }
        ∧ t2.title = "renamed" := by
  have h := C10_update_task_ignores_contact_changes db5w 1 1
    { title := some "renamed", removeContactIds := some [10, 11] }
  refine ⟨h.1, ?_⟩
  obtain ⟨t2, heq, htitle, _, _⟩ := h.2
    { id := 1, userId := 1, title := "t", description := none,
      scheduledDatetime := 10, status := .pendiente, tags := [],
      isSent := false, sentAt := none, isActive := true,
      createdByAi := false } (by decide)
  exact ⟨t2, heq, htitle⟩

-- ============================================
-- C6: WhatsApp channel_value validation
-- ============================================

/-- Python `str.isalnum()`: non-empty and alphanumeric only. -/
def pyIsAlnum (s : PyStr) : Bool :=
  !s.isEmpty && s.all Char.isAlphanum

/-- `ContactCreate.validate_channel_value` from `app/schemas/contact.py`:
channel-specific validation, dispatching on the `channel_type` already
parsed for the request.  WhatsApp: strip, require a leading '+', remove
spaces and hyphens from the rest, require only digits and a digit count of
10 to 15.  Email: strip and lowercase, require '@' with a '.' after it and
no spaces.  Telegram: strip, require '@' plus ≥5 characters that are
alphanumeric or underscores. -/
def validate_channel_value (channelType : ChannelTypeV) (v0 : PyStr) :
    Except String PyStr :=
  match channelType with
  | .whatsapp =>
    let v := pyStrip v0
    if ¬ (v.head? = some '+') then
      .error "El número de WhatsApp debe empezar con + (formato internacional)"
    else
      let phoneDigits := pyRemoveChar (pyRemoveChar (v.drop 1) ' ') '-'
      if ¬ (pyIsDigit phoneDigits = true) then
        .error "El número de WhatsApp debe contener solo dígitos después del +"
      else if phoneDigits.length < 10 ∨ 15 < phoneDigits.length then
        .error "El número de WhatsApp debe tener entre 10 y 15 dígitos"
      else .ok v
  | .email =>
    let v := (pyStrip v0).map Char.toLower
    if ¬ (('@' ∈ v) ∧ '.' ∈ ((v.dropWhile (fun c => c ≠ '@')).drop 1).takeWhile (fun c => c ≠ '@')) then
      .error "Formato de email inválido"
    else if ' ' ∈ v then
      .error "El email no puede contener espacios"
    else .ok v
  | .telegram =>
    let v := pyStrip v0
    if ¬ (v.head? = some '@') then
      .error "El username de Telegram debe empezar con @"
    else if (v.drop 1).length < 5 then
      .error "El username de Telegram debe tener al menos 5 caracteres después de @"
    else if ¬ (pyIsAlnum ((v.drop 1).filter (fun c => c ≠ '_')) = true) then
      .error "El username de Telegram solo puede contener letras, números y guiones bajos"
    else .ok v

/-- Claim C6 counterexample: a WhatsApp value containing a space after the
'+' is accepted (the validator removes spaces and hyphens before checking
digits), so acceptance is NOT "a leading '+' followed by 10-15 digits and
nothing else", and an accepted value may contain non-digits after the '+'. -/
theorem C6_whatsapp_space_value_accepted :
    validate_channel_value .whatsapp "+12 3456789012".data
      = .ok "+12 3456789012".data
    ∧ ("+12 3456789012".data.drop 1).all Char.isDigit = false := by
  refine ⟨rfl, by decide⟩

/-- Spec-side acceptance predicate for the amended C6 claim, phrased over
the raw characters: after stripping surrounding whitespace the value is a
'+' followed only by digits, spaces and hyphens, among which the number of
digits is between 10 and 15. -/
def whatsappSpecAccepts (v0 : PyStr) : Bool :=
  let v := pyStrip v0
  decide (v.head? = some '+')
    && (v.drop 1).all (fun c => c.isDigit || c = ' ' || c = '-')
    && decide (10 ≤ (v.drop 1).countP (fun c => c.isDigit))
    && decide ((v.drop 1).countP (fun c => c.isDigit) ≤ 15)

/-- Removing spaces then hyphens is one filter. -/
theorem remove_space_hyphen_eq_filter (l : PyStr) :
    pyRemoveChar (pyRemoveChar l ' ') '-'
      = l.filter (fun c => decide (c ≠ '-') && decide (c ≠ ' ')) := by
  unfold pyRemoveChar
  rw [List.filter_filter]

/-- Under the digits/spaces/hyphens condition, the filtered string has
exactly the digits. -/
theorem filtered_length_eq_countP (l : PyStr)
    (hall : l.all (fun c => c.isDigit || c = ' ' || c = '-') = true) :
    (pyRemoveChar (pyRemoveChar l ' ') '-').length
      = l.countP (fun c => c.isDigit) := by
  rw [remove_space_hyphen_eq_filter, ← List.countP_eq_length_filter]
  apply List.countP_congr
  intro c hc
  rw [List.all_eq_true] at hall
  have h3 := hall c hc
  constructor
  · intro hkeep
    rcases Bool.and_eq_true_iff.mp hkeep with ⟨h1, h2⟩
    rcases Bool.or_eq_true_iff.mp h3 with h | hsp
    · rcases Bool.or_eq_true_iff.mp h with hd | hsp2
      · exact hd
      · exact absurd (by simpa using hsp2) (by simpa using h2)
    · exact absurd (by simpa using hsp) (by simpa using h1)
  · intro hd
    have hns : c ≠ ' ' := by rintro rfl; simp at hd
    have hnh : c ≠ '-' := by rintro rfl; simp at hd
    simp [hns, hnh]

/-- Under the digits/spaces/hyphens condition every remaining character is a
digit. -/
theorem filtered_all_digit (l : PyStr)
    (hall : l.all (fun c => c.isDigit || c = ' ' || c = '-') = true) :
    (pyRemoveChar (pyRemoveChar l ' ') '-').all Char.isDigit = true := by
  rw [remove_space_hyphen_eq_filter, List.all_eq_true]
  intro c hc
  rw [List.mem_filter] at hc
  rw [List.all_eq_true] at hall
  have h3 := hall c hc.1
  rcases Bool.and_eq_true_iff.mp hc.2 with ⟨h1, h2⟩
  rcases Bool.or_eq_true_iff.mp h3 with h | hsp
  · rcases Bool.or_eq_true_iff.mp h with hd | hsp2
    · exact hd
    · exact absurd (by simpa using hsp2) (by simpa using h2)
  · exact absurd (by simpa using hsp) (by simpa using h1)

/-- When some character is neither digit nor space nor hyphen, the filtered
string fails `isdigit`. -/
theorem filtered_not_digit (l : PyStr)
    (hnall : l.all (fun c => c.isDigit || c = ' ' || c = '-') = false) :
    pyIsDigit (pyRemoveChar (pyRemoveChar l ' ') '-') = false := by
  rw [List.all_eq_false] at hnall
  obtain ⟨c, hc, hcbad⟩ := hnall
  simp only [Bool.or_eq_true, decide_eq_true_eq, not_or] at hcbad
  obtain ⟨⟨hnd, hns⟩, hnh⟩ := hcbad
  have hmem : c ∈ pyRemoveChar (pyRemoveChar l ' ') '-' := by
    rw [remove_space_hyphen_eq_filter, List.mem_filter]
    exact ⟨hc, by simp [hns, hnh]⟩
  unfold pyIsDigit
  rcases hdig : (pyRemoveChar (pyRemoveChar l ' ') '-').all Char.isDigit with _ | _
  · simp
  · rw [List.all_eq_true] at hdig
    exact absurd (hdig c hmem) (by simpa using hnd)

/-- Claim C6 amended: the WhatsApp validator accepts a channel value exactly
when, after stripping surrounding whitespace, it is a '+' followed only by
digits, spaces and hyphens, with 10 to 15 digits among them — in particular
every value without a leading '+' (after stripping) is rejected, but
accepted values may contain spaces and hyphens after the '+'. -/
theorem C6_whatsapp_accept_characterization (v : PyStr) :
    (validate_channel_value .whatsapp v).isOk = whatsappSpecAccepts v := by
  unfold validate_channel_value whatsappSpecAccepts
  dsimp only
  by_cases hplus : (pyStrip v).head? = some '+'
  · rw [if_neg (not_not_intro hplus), decide_eq_true hplus, Bool.true_and]
    by_cases hall : ((pyStrip v).drop 1).all
        (fun c => c.isDigit || c = ' ' || c = '-') = true
    · rw [hall, Bool.true_and]
      have hlen := filtered_length_eq_countP ((pyStrip v).drop 1) hall
      have hdig := filtered_all_digit ((pyStrip v).drop 1) hall
      by_cases h10 : 10 ≤ ((pyStrip v).drop 1).countP (fun c => c.isDigit)
      · have hne : (pyRemoveChar (pyRemoveChar ((pyStrip v).drop 1) ' ') '-') ≠ [] := by
          intro hnil
          rw [hnil] at hlen
          simp only [List.length_nil] at hlen
          omega
        have hisdig : pyIsDigit
            (pyRemoveChar (pyRemoveChar ((pyStrip v).drop 1) ' ') '-') = true := by
          rcases hx : (pyRemoveChar (pyRemoveChar ((pyStrip v).drop 1) ' ') '-')
            with _ | ⟨a, rest⟩
          · exact absurd hx hne
          · rw [hx] at hdig
            unfold pyIsDigit
            rw [hdig]
            rfl
        rw [if_neg (not_not_intro hisdig)]
        by_cases h15 : ((pyStrip v).drop 1).countP (fun c => c.isDigit) ≤ 15
        · rw [if_neg (by rw [hlen]; omega)]
          rw [decide_eq_true h10, decide_eq_true h15]
          rfl
        · rw [if_pos (by rw [hlen]; omega)]
          rw [decide_eq_true h10, decide_eq_false_iff_not.mpr h15]
          rfl
      · rw [decide_eq_false_iff_not.mpr h10, Bool.false_and]
        rcases hid : pyIsDigit
            (pyRemoveChar (pyRemoveChar ((pyStrip v).drop 1) ' ') '-') with _ | _
        · rw [if_pos Bool.false_ne_true]
          rfl
        · rw [if_neg (not_not_intro rfl), if_pos (by rw [hlen]; omega)]
          rfl
    · have hallf : ((pyStrip v).drop 1).all
          (fun c => c.isDigit || c = ' ' || c = '-') = false := by
        rcases hb : ((pyStrip v).drop 1).all (fun c => c.isDigit || c = ' ' || c = '-')
          with _ | _
        · rfl
        · exact absurd hb hall
      have hnd := filtered_not_digit ((pyStrip v).drop 1) hallf
      rw [if_pos (by rw [hnd]; exact Bool.false_ne_true)]
      rw [hallf, Bool.false_and, Bool.false_and]
      rfl
  · rw [if_pos hplus, decide_eq_false_iff_not.mpr hplus]
    simp only [Bool.false_and]
    rfl

-- ============================================
-- C9: tag encoding round trip
-- ============================================

theorem splitComma_ne_nil (l : PyStr) : splitComma l ≠ [] := by
  cases l with
  | nil => simp [splitComma]
  | cons c cs =>
    unfold splitComma
    rcases splitComma cs with _ | ⟨t, ts⟩
    · simp
    · by_cases h : c = ','
      · simp [h]
      · simp [h]

theorem splitComma_no_comma (l : PyStr) (h : ',' ∉ l) : splitComma l = [l] := by
  induction l with
  | nil => rfl
  | cons c cs ih =>
    have hc : c ≠ ',' := by
      intro hh
      subst hh
      exact h (List.mem_cons_self _ _)
    have hcs : ',' ∉ cs := fun hh => h (List.mem_cons_of_mem c hh)
    unfold splitComma
    rw [ih hcs]
    simp [hc]

theorem splitComma_append_comma (a rest : PyStr) (h : ',' ∉ a) :
    splitComma (a ++ ',' :: rest) = a :: splitComma rest := by
  induction a with
  | nil =>
    rw [List.nil_append]
    rcases hx : splitComma rest with _ | ⟨t, ts⟩
    · exact absurd hx (splitComma_ne_nil rest)
    · conv_lhs => rw [splitComma]
      rw [hx]
      simp
  | cons c cs ih =>
    have hc : c ≠ ',' := by
      intro hh
      subst hh
      exact h (List.mem_cons_self _ _)
    have hcs : ',' ∉ cs := fun hh => h (List.mem_cons_of_mem c hh)
    rw [List.cons_append]
    conv_lhs => rw [splitComma]
    rw [ih hcs]
    simp [hc]

theorem joinComma_cons_cons (x y : PyStr) (zs : List PyStr) :
    joinComma (x :: y :: zs) = x ++ ',' :: joinComma (y :: zs) := by
  unfold joinComma
  simp [List.intercalate, List.intersperse]

/-- Splitting the comma-joined encoding recovers the original pieces when
none of them contains a comma. -/
theorem splitComma_joinComma (ts : List PyStr) :
    ts ≠ [] → (∀ t ∈ ts, ',' ∉ t) → splitComma (joinComma ts) = ts := by
  induction ts with
  | nil =>
    intro hne _
    exact absurd rfl hne
  | cons t rest ih =>
    intro _ hnc
    cases rest with
    | nil =>
      have hj : joinComma [t] = t := by simp [joinComma, List.intercalate]
      rw [hj]
      exact splitComma_no_comma t (hnc t (List.mem_cons_self _ _))
    | cons t2 rest2 =>
      rw [joinComma_cons_cons,
        splitComma_append_comma t _ (hnc t (List.mem_cons_self _ _)),
        ih (by simp) (fun x hx => hnc x (List.mem_cons_of_mem _ hx))]

theorem filterMap_strip_of_nonblank (ts : List PyStr)
    (h : ∀ t ∈ ts, ¬(pyStrip t).isEmpty = true) :
    (ts.filterMap
        (fun t => if (pyStrip t).isEmpty then none else some (pyStrip t)))
      = ts.map pyStrip := by
  induction ts with
  | nil => rfl
  | cons t rest ih =>
    have hf : (if (pyStrip t).isEmpty = true then none else some (pyStrip t))
        = some (pyStrip t) := if_neg (h t (List.mem_cons_self _ _))
    rw [List.filterMap_cons, hf, ih (fun x hx => h x (List.mem_cons_of_mem _ hx))]
    rfl

/-- Claim C9 counterexample: the tag list `["a,b"]` is accepted by the tag
validator (one tag, 3 characters, not blank), but encoding and decoding it
yields `["a", "b"]`, not the original single stripped tag — the
delimited-string storage is lossy on tags containing commas. -/
theorem C9_roundtrip_fails_on_comma_tag :
    validate_tags (some [['a', ',', 'b']]) = .ok (some [['a', ',', 'b']])
    ∧ tags_string_to_list (tags_list_to_string (some [['a', ',', 'b']]))
        = [['a'], ['b']]
    ∧ [['a'], ['b']] ≠ ([['a', ',', 'b']] : List PyStr).map pyStrip := by
  refine ⟨by decide, by decide, by decide⟩

/-- Claim C9 amended: for every tag list accepted by the tag validator in
which no tag contains a comma, encoding with `tags_list_to_string` and
decoding with `tags_string_to_list` yields the same list with each tag
stripped of surrounding whitespace; and `Task.get_tags_list` is the same
decoding applied to the row's tags column.  (A tag containing a comma is
accepted by the validator but breaks the round trip, as the counterexample
shows.) -/
theorem C9_tags_roundtrip_comma_free (ts : List PyStr)
    (hacc : ∃ out, validate_tags (some ts) = .ok out)
    (hnc : ∀ t ∈ ts, ',' ∉ t) :
    tags_string_to_list (tags_list_to_string (some ts)) = ts.map pyStrip
    ∧ ∀ tk : TaskR, tk.get_tags_list = tags_string_to_list tk.tags := by
  have hblank : ∀ t ∈ ts, ¬(pyStrip t).isEmpty = true := by
    obtain ⟨out, hout⟩ := hacc
    simp only [validate_tags] at hout
    split at hout
    · exact absurd hout (by simp)
    · split at hout
      · exact absurd hout (by simp)
      · split at hout
        · exact absurd hout (by simp)
        · rename_i hany
          intro t ht hemp
          exact hany (by rw [List.any_eq_true]; exact ⟨t, ht, hemp⟩)
  refine ⟨?_, fun tk => rfl⟩
  cases ts with
  | nil => rfl
  | cons t rest =>
    have htne : t ≠ [] := by
      intro h0
      have hb := hblank t (List.mem_cons_self _ _)
      rw [h0] at hb
      exact hb rfl
    have hjoin_ne : joinComma (t :: rest) ≠ [] := by
      cases rest with
      | nil =>
        have hj : joinComma [t] = t := by simp [joinComma, List.intercalate]
        rw [hj]
        exact htne
      | cons t2 r2 =>
        rw [joinComma_cons_cons]
        intro hx
        rcases List.append_eq_nil.mp hx with ⟨_, h2⟩
        exact absurd h2 (by simp)
    simp only [tags_list_to_string]
    rw [if_neg (by simp)]
    simp only [tags_string_to_list]
    rw [if_neg (by
      intro hcond
      exact hjoin_ne (List.isEmpty_iff.mp hcond))]
    rw [splitComma_joinComma (t :: rest) (by simp) hnc]
    exact filterMap_strip_of_nonblank (t :: rest) hblank

/-- Witness for the amended C9 theorem at a concrete accepted, comma-free
tag list. -/
theorem C9_tags_roundtrip_comma_free_witness :
    tags_string_to_list (tags_list_to_string (some [['a', 'b'], ['c']]))
      = [['a', 'b'], ['c']] := by
  have h := (C9_tags_roundtrip_comma_free [['a', 'b'], ['c']]
    ⟨some [['a', 'b'], ['c']], by decide⟩ (by decide)).1
  rw [h]
  decide
